import Mathlib

/-!
Verification of the PDS scraper pipeline (myscript.py): a shallow embedding
of the spreadsheet data model, the per-row pipeline and the batch
orchestrator, with theorems settling the specification claims.
-/

namespace PdsScraper

/-- Model of a spreadsheet cell as materialised by pandas: missing (NaN),
a string, or a number. -/
inductive Cell where
  | na : Cell
  | str (s : String) : Cell
  | num (n : Int) : Cell
deriving DecidableEq, Repr

/-- The pandas `pd.isna` test on a single cell. -/
def Cell.isna : Cell → Bool
  | .na => true
  | _ => false

/-- The Python exceptions the modelled code can raise. -/
inductive PyErr where
  | attributeError : PyErr
  | keyError : PyErr
deriving DecidableEq, Repr

/-- Whitespace characters: the regex class `\s` and Python `str.strip()`
(ASCII fragment). -/
def isSpaceChar (c : Char) : Bool :=
  decide (c = ' ' ∨ c = '\t' ∨ c = '\n' ∨ c = '\r' ∨ c = Char.ofNat 11 ∨ c = Char.ofNat 12)

/-- The regex class `\d` (ASCII fragment). -/
def isDigitChar (c : Char) : Bool :=
  decide ('0' ≤ c ∧ c ≤ '9')

/-- The regex class `[A-Za-z]`. -/
def isAlphaChar (c : Char) : Bool :=
  decide (('A' ≤ c ∧ c ≤ 'Z') ∨ ('a' ≤ c ∧ c ≤ 'z'))

/-- Python `str.strip()`. -/
def stripStr (s : String) : String :=
  (((s.toList.dropWhile isSpaceChar).reverse.dropWhile isSpaceChar).reverse).asString

/-- Python `str(x)` applied to a cell. -/
def pyStr : Cell → String
  | .na => "nan"
  | .str s => s
  | .num n => toString n

/-- Calling `x.strip()` on a cell: only string cells have the method, any other
value raises AttributeError. -/
def pyStrip : Cell → Except PyErr String
  | .str s => .ok (stripStr s)
  | _ => .error .attributeError

/-- Value of a digit string, as `int()` computes it on `\d+` matches. -/
def digitsToNat (cs : List Char) : Nat :=
  cs.foldl (fun a c => 10 * a + (c.toNat - 48)) 0

/-- ASCII lower-casing, for the IGNORECASE month-name match of strptime. -/
def charLower (c : Char) : Char :=
  if decide ('A' ≤ c ∧ c ≤ 'Z') then Char.ofNat (c.toNat + 32) else c

/-! ## format_pds_date (myscript.py lines 28-34)

`datetime.strptime(date_str, "%d %B %Y")` then `strftime("%-d %B %Y")`,
returning the input unchanged on ValueError. -/

def monthNamesList : List String :=
  ["January", "February", "March", "April", "May", "June",
   "July", "August", "September", "October", "November", "December"]

def monthName (m : Nat) : String := (monthNamesList.get? (m - 1)).getD ""

/-- Case-insensitive literal prefix match, returning the rest of the input
on success. -/
def stripPrefixCI : List Char → List Char → Option (List Char)
  | [], cs => some cs
  | _ :: _, [] => none
  | p :: ps, c :: cs => if charLower c = charLower p then stripPrefixCI ps cs else none

def matchMonthAux : List (Nat × String) → List Char → Option (Nat × List Char)
  | [], _ => none
  | (i, nm) :: rest, cs =>
    match stripPrefixCI nm.toList cs with
    | some r => some (i, r)
    | none => matchMonthAux rest cs

/-- The `%B` pattern: one of the twelve full month names, case-insensitively
(no name is a prefix of another, so first match is the only match). -/
def matchMonth (cs : List Char) : Option (Nat × List Char) :=
  matchMonthAux
    [(1, "January"), (2, "February"), (3, "March"), (4, "April"),
     (5, "May"), (6, "June"), (7, "July"), (8, "August"),
     (9, "September"), (10, "October"), (11, "November"), (12, "December")] cs

/-- The `%d` pattern `3[0-1]|[1-2]\d|0[1-9]|[1-9]| [1-9]`: the candidate
(day value, rest) pairs in the regex's alternation order. -/
def dayCands (cs : List Char) : List (Nat × List Char) :=
  match cs with
  | c0 :: c1 :: r =>
    (if c0 = '3' ∧ (c1 = '0' ∨ c1 = '1') then [(30 + (c1.toNat - 48), r)] else []) ++
    (if (c0 = '1' ∨ c0 = '2') ∧ isDigitChar c1 = true then
      [(10 * (c0.toNat - 48) + (c1.toNat - 48), r)] else []) ++
    (if c0 = '0' ∧ ('1' ≤ c1 ∧ c1 ≤ '9') then [(c1.toNat - 48, r)] else []) ++
    (if '1' ≤ c0 ∧ c0 ≤ '9' then [(c0.toNat - 48, c1 :: r)] else []) ++
    (if c0 = ' ' ∧ ('1' ≤ c1 ∧ c1 ≤ '9') then [(c1.toNat - 48, r)] else [])
  | [c0] => if '1' ≤ c0 ∧ c0 ≤ '9' then [(c0.toNat - 48, [])] else []
  | [] => []

def isLeap (y : Nat) : Bool :=
  decide ((y % 4 = 0 ∧ ¬ y % 100 = 0) ∨ y % 400 = 0)

def daysInMonth (m y : Nat) : Nat :=
  if m = 2 then (if isLeap y then 29 else 28)
  else if m = 4 ∨ m = 6 ∨ m = 9 ∨ m = 11 then 30
  else 31

/-- Continuation of `%d %B %Y` after the day: one-or-more whitespace, a full
month name, one-or-more whitespace, exactly four digits, end of input
(strptime rejects trailing characters). -/
def afterDay (cs : List Char) : Option (Nat × Nat) :=
  let p1 := cs.span isSpaceChar
  if p1.1 = [] then none else
  match matchMonth p1.2 with
  | none => none
  | some (m, r2) =>
    let p2 := r2.span isSpaceChar
    if p2.1 = [] then none else
    match p2.2 with
    | [y1, y2, y3, y4] =>
      if isDigitChar y1 = true ∧ isDigitChar y2 = true ∧
         isDigitChar y3 = true ∧ isDigitChar y4 = true then
        some (m, digitsToNat [y1, y2, y3, y4])
      else none
    | _ => none

def firstSome {α β : Type} (f : α → Option β) : List α → Option β
  | [] => none
  | a :: t =>
    match f a with
    | some b => some b
    | none => firstSome f t

/-- Model of `datetime.strptime(s, "%d %B %Y")`: the regex match (first day
alternative whose continuation succeeds), then the datetime constructor's
validation of the year and the day of month. -/
def parseDMY (s : String) : Option (Nat × Nat × Nat) :=
  match firstSome (fun dc => (afterDay dc.2).map (fun my => (dc.1, my.1, my.2)))
      (dayCands s.toList) with
  | some (d, m, y) => if 1 ≤ y ∧ d ≤ daysInMonth m y then some (d, m, y) else none
  | none => none

/-- Model of `strftime("%-d %B %Y")`: day and year unpadded, canonical month name. -/
def renderDMY (d m y : Nat) : String :=
  toString d ++ " " ++ monthName m ++ " " ++ toString y

/-- format_pds_date (lines 28-34): reformat on success, return the input
unchanged on parse failure. -/
def format_pds_date (s : String) : String :=
  match parseDMY s with
  | some (d, m, y) => renderDMY d m y
  | none => s

/-! ## validate_pdf_with_ai response parsing (lines 77-101) -/

/-- The U+2019 right single quotation mark, the character appearing in the
source's fallback reason string. -/
def rsquo : Char := Char.ofNat 8217

/-- The fallback reason literal at line 101 of myscript.py. -/
def fallbackReason : String := "Couldn" ++ rsquo.toString ++ "t parse AI response"

/-- Exact literal prefix match, returning the rest of the input. -/
def stripPrefixLit : List Char → List Char → Option (List Char)
  | [], cs => some cs
  | _ :: _, [] => none
  | p :: ps, c :: cs => if c = p then stripPrefixLit ps cs else none

/-- Tail of the date pattern after its day digits: a literal space, a
maximal nonempty `[A-Za-z]+` run, a literal space, exactly four digits;
anything may follow (re.match is a prefix match). Returns the matched date
characters and the rest. -/
def dateAfterDayPart (dayChars : List Char) (cs : List Char) :
    Option (List Char × List Char) :=
  let p := cs.span isAlphaChar
  if p.1 = [] then none else
  match p.2 with
  | ' ' :: r2 =>
    match r2 with
    | y1 :: y2 :: y3 :: y4 :: r3 =>
      if isDigitChar y1 = true ∧ isDigitChar y2 = true ∧
         isDigitChar y3 = true ∧ isDigitChar y4 = true then
        some (dayChars ++ [' '] ++ p.1 ++ [' ', y1, y2, y3, y4], r3)
      else none
    | _ => none
  | _ => none

/-- The capture group `(\d{1,2} [A-Za-z]+ \d{4})`: greedily two day digits
when a space follows them, else one day digit followed by a space. -/
def matchDatePart (cs : List Char) : Option (List Char × List Char) :=
  match cs with
  | c1 :: c2 :: rest2 =>
    if isDigitChar c1 = true then
      if isDigitChar c2 = true then
        match rest2 with
        | ' ' :: rest3 => dateAfterDayPart [c1, c2] rest3
        | _ => none
      else if c2 = ' ' then dateAfterDayPart [c1] rest2
      else none
    else none
  | _ => none

/-- Model of `re.match(r"(\d+)\s*\|\s*([^|]+)\s*\|\s*PDS date:\s*(\d{1,2} [A-Za-z]+ \d{4})", content)`
together with the conversions of lines 83-86: `int` on the score digits,
`.strip()` on the reason segment (the greedy `\s*([^|]+)\s*` decomposition
makes the stripped group equal the stripped inter-pipe segment, which must
be nonempty), `.strip()` then `format_pds_date` on the date group. -/
def match3 (cs : List Char) : Option (Int × String × String) :=
  let pd := cs.span isDigitChar
  if pd.1 = [] then none else
  match pd.2.dropWhile isSpaceChar with
  | '|' :: r2 =>
    let ps := r2.span (fun c => decide (¬ c = '|'))
    (match ps.2 with
     | '|' :: r5 =>
       if ps.1 = [] then none else
       match stripPrefixLit ("PDS date:".toList) (r5.dropWhile isSpaceChar) with
       | some r6 =>
         (match matchDatePart (r6.dropWhile isSpaceChar) with
          | some (dchars, _) =>
            some ((digitsToNat pd.1 : Int), stripStr ps.1.asString,
                  format_pds_date (stripStr dchars.asString))
          | none => none)
       | none => none
     | _ => none)
  | _ => none

/-- Model of `re.match(r"100\s*\|\s*PDS date:\s*(\d{1,2} [A-Za-z]+ \d{4})", content)`
and line 91's result. -/
def match100 (cs : List Char) : Option (Int × String × String) :=
  match stripPrefixLit ("100".toList) cs with
  | some r0 =>
    (match r0.dropWhile isSpaceChar with
     | '|' :: r2 =>
       (match stripPrefixLit ("PDS date:".toList) (r2.dropWhile isSpaceChar) with
        | some r3 =>
          (match matchDatePart (r3.dropWhile isSpaceChar) with
           | some (dchars, _) => some (100, "", format_pds_date dchars.asString)
           | none => none)
        | none => none)
     | _ => none)
  | none => none

/-- Model of `re.match(r"(\d+)\s*\|\s*(.*)", content)` and lines 96-98: the greedy
`\s*` may cross newlines, `(.*)` then captures up to the next newline, and
the group is stripped. -/
def match2 (cs : List Char) : Option (Int × String × String) :=
  let pd := cs.span isDigitChar
  if pd.1 = [] then none else
  match pd.2.dropWhile isSpaceChar with
  | '|' :: r2 =>
    some ((digitsToNat pd.1 : Int),
          stripStr (((r2.dropWhile isSpaceChar).takeWhile
            (fun c => decide (¬ c = '\n'))).asString), "")
  | _ => none

/-- Model of lines 81-101: the strict-then-lenient cascade over the (already
stripped) model output, with the fallback triple when nothing matches. -/
def parse_ai_content (content : String) : Int × String × String :=
  match match3 content.toList with
  | some r => r
  | none =>
    match match100 content.toList with
    | some r => r
    | none =>
      match match2 content.toList with
      | some r => r
      | none => (0, fallbackReason, "")

/-! ## The external world, process_row, and the batch orchestrator -/

/-- The external collaborators, as oracles: the web search (`""` means no
result), the first-page text extraction (`""` means nothing extracted), the
language model's response text, and the downloader's result (`none` means
the download failed). -/
structure World where
  locate : String → Option String → String
  fetchText : String → String
  respond : String → String → Option String → String
  downloadResult : String → String → Option String

/-- validate_pdf_with_ai (lines 36-101) for a successful model call: the
text is truncated to 15000 characters for the request, the raw model output
is stripped and fed to the parsing cascade. -/
def validate_pdf_with_ai (w : World) (text product_name : String)
    (apir_code : Option String) : Int × String × String :=
  parse_ai_content (stripStr (w.respond (text.take 15000) product_name apir_code))

/-- Model of line 167: `str(row['APIR code']).strip() if pd.notna(row['APIR code'])
else None`. -/
def apirCode (ac : Cell) : Option String :=
  if ac.isna then none else some (stripStr (pyStr ac))

/-- The external calls a row's processing can make, for the call trace. -/
inductive Call where
  | locator : Call
  | fetcher : Call
  | classifier : Call
  | downloader : Call
deriving DecidableEq, Repr

/-- process_row (lines 158-180): the returned quadruple
(web link, score, reason, date) together with the trace of external calls
made, or the Python exception raised. The downloader's result is computed
and discarded, exactly as at line 178. -/
def process_row (w : World) (productCell : Cell) (apirCell : Option Cell) :
    Except PyErr ((String × Int × String × String) × List Call) :=
  match pyStrip productCell with
  | Except.error e => Except.error e
  | Except.ok product_name =>
    match apirCell with
    | none => Except.error PyErr.keyError
    | some ac =>
      let apir := apirCode ac
      let pdf_url := w.locate product_name apir
      if pdf_url = "" then
        Except.ok (("Not found", 0, "No PDF", ""), [Call.locator])
      else
        let text := w.fetchText pdf_url
        if text = "" then
          Except.ok (("Not found", 0, "No text extracted", ""),
            [Call.locator, Call.fetcher])
        else
          let r := validate_pdf_with_ai w text product_name apir
          if r.1 = 100 ∧ ¬ pdf_url = "Not found" then
            let _ := w.downloadResult pdf_url product_name
            Except.ok ((pdf_url, r.1, r.2.1, r.2.2),
              [Call.locator, Call.fetcher, Call.classifier, Call.downloader])
          else
            Except.ok ((pdf_url, r.1, r.2.1, r.2.2),
              [Call.locator, Call.fetcher, Call.classifier])

/-! ## DataFrame model and run_my_script -/

/-- A pandas DataFrame: column labels plus rows of cells. -/
structure DF where
  names : List String
  rows : List (List Cell)
deriving DecidableEq, Repr

def expected_columns : List String :=
  ["APIR code", "Product name", "PDS date", "Web link"]

/-- Lookup in an association list where later entries overwrite earlier
ones, as insertion into a Python dict does. -/
def assocLast : List (String × String) → String → Option String
  | [], _ => none
  | (k, v) :: t, x =>
    match assocLast t x with
    | some w => some w
    | none => if k = x then some v else none

/-- The rename dictionary of line 25,
`{col: expected_columns[i] for i, col in enumerate(df.columns[:4])}`:
when the first four labels repeat, the later position wins; labels not
among the first four are left alone by `rename`. -/
def colMapping (names : List String) (x : String) : String :=
  match assocLast ((names.take 4).zip expected_columns) x with
  | some v => v
  | none => x

/-- map_columns (lines 22-26): `df.rename(columns=mapped_columns)` applies
the dictionary to every label and never fails. -/
def map_columns (df : DF) : DF :=
  { names := df.names.map (colMapping df.names), rows := df.rows }

/-- Replace the entries of a row lying in a column labelled `name`. -/
def setRowAll (names : List String) (name : String) (v : Cell) (r : List Cell) :
    List Cell :=
  List.zipWith (fun n c => if n = name then v else c) names r

/-- Assignment `df[name] = v` with a scalar: overwrite the column when the label
exists, otherwise append a new column. -/
def setConst (df : DF) (name : String) (v : Cell) : DF :=
  if df.names.contains name then
    { names := df.names, rows := df.rows.map (setRowAll df.names name v) }
  else
    { names := df.names ++ [name], rows := df.rows.map (fun r => r ++ [v]) }

/-- Apply `f` to the element at position `i`, leaving the rest unchanged. -/
def modifyNth {α : Type} (f : α → α) : Nat → List α → List α
  | _, [] => []
  | 0, a :: t => f a :: t
  | n + 1, a :: t => a :: modifyNth f n t

/-- Assignment `df.at[i, name] = v`. -/
def setCell (df : DF) (name : String) (i : Nat) (v : Cell) : DF :=
  { names := df.names, rows := modifyNth (setRowAll df.names name v) i df.rows }

/-- Access `row[name]` for the row at position `i`; `none` models a KeyError or a
missing row. -/
def getCell (df : DF) (name : String) (i : Nat) : Option Cell :=
  match df.names.findIdx? (fun n => decide (n = name)) with
  | some k =>
    match df.rows.get? i with
    | some r => r.get? k
    | none => none
  | none => none

/-- Model of lines 203-206: the pre-loop initialisation of the derived columns.
`Web link` and `PDS date` already exist after map_columns and are
overwritten; `Validity Score` and `Validation Reason` are appended. -/
def initCols (df : DF) : DF :=
  setConst (setConst (setConst (setConst df "Web link" (Cell.str ""))
    "Validity Score" (Cell.num 0)) "Validation Reason" (Cell.str ""))
    "PDS date" (Cell.str "")

/-- One iteration of the row loop (lines 211-228, without the download
bookkeeping and the sleep): skip when `pd.isna(row['Product name'])`,
otherwise run process_row and write the four derived cells in place. -/
def stepRow (w : World) (d : DF) (i : Nat) : Except PyErr DF :=
  match getCell d "Product name" i with
  | none => Except.error PyErr.keyError
  | some pc =>
    if pc.isna then Except.ok d
    else
      match process_row w pc (getCell d "APIR code" i) with
      | Except.error e => Except.error e
      | Except.ok (q, _) =>
        Except.ok (setCell (setCell (setCell (setCell d "Web link" i (Cell.str q.1))
          "Validity Score" i (Cell.num q.2.1)) "Validation Reason" i
          (Cell.str q.2.2.1)) "PDS date" i (Cell.str q.2.2.2))

/-- run_my_script's dataframe pipeline (lines 199-232): normalise the
columns, initialise the derived columns, process the rows in order. The
returned dataframe is what line 232 serialises to the output spreadsheet. -/
def run_my_script (w : World) (df : DF) : Except PyErr DF :=
  (List.range (initCols (map_columns df)).rows.length).foldlM (stepRow w)
    (initCols (map_columns df))

/-! ## Auxiliary definitions for the statements and witnesses -/

/-- The output column labels of a successful run on a four-column input. -/
def finalNames : List String :=
  ["APIR code", "Product name", "PDS date", "Web link",
   "Validity Score", "Validation Reason"]

/-- The first two cells of a row (the APIR code and product name columns
of a normalised frame). -/
def proj2 (r : List Cell) : Option Cell × Option Cell := (r.get? 0, r.get? 1)

/-- A world in which the search never finds a URL. -/
def wNoHit : World :=
  ⟨fun _ _ => "", fun _ => "", fun _ _ _ => "", fun _ _ => none⟩

/-- A world in which the search finds a URL, text is extracted and the
model answers with a fully-valid bare-100 response. -/
def wHit : World :=
  ⟨fun _ _ => "http://x", fun _ => "text",
   fun _ _ _ => "100 | PDS date: 10 April 2023", fun _ _ => some "file"⟩

/-- The fallback reason as the specification spells it, with an ASCII
apostrophe U+0027. -/
def asciiFallback : String :=
  "Couldn" ++ (Char.ofNat 39).toString ++ "t parse AI response"

/-- What the pre-loop initialisation does to one row of a frame whose
columns are the four canonical ones. -/
def initRowFn (r : List Cell) : List Cell :=
  setRowAll finalNames "PDS date" (Cell.str "")
    ((setRowAll expected_columns "Web link" (Cell.str "") r ++ [Cell.num 0]) ++
      [Cell.str ""])

/-! ## Helper lemmas: list and dataframe plumbing -/

theorem modifyNth_length {α : Type} (f : α → α) :
    ∀ (i : Nat) (l : List α), (modifyNth f i l).length = l.length := by
  intro i
  induction i with
  | zero => intro l; cases l <;> rfl
  | succ n ih =>
    intro l
    cases l with
    | nil => rfl
    | cons a t => simpa [modifyNth] using ih t

theorem modifyNth_get?_ne {α : Type} (f : α → α) :
    ∀ (i : Nat) (l : List α) (j : Nat), j ≠ i →
      (modifyNth f i l).get? j = l.get? j := by
  intro i
  induction i with
  | zero =>
    intro l j hj
    cases l with
    | nil => rfl
    | cons a t =>
      cases j with
      | zero => exact absurd rfl hj
      | succ j => rfl
  | succ n ih =>
    intro l j hj
    cases l with
    | nil => rfl
    | cons a t =>
      cases j with
      | zero => rfl
      | succ j =>
        simpa [modifyNth] using ih t j (fun h => hj (by simp [h]))

theorem modifyNth_get?_eq {α : Type} (f : α → α) :
    ∀ (i : Nat) (l : List α), (modifyNth f i l).get? i = (l.get? i).map f := by
  intro i
  induction i with
  | zero =>
    intro l
    cases l <;> rfl
  | succ n ih =>
    intro l
    cases l with
    | nil => rfl
    | cons a t => simpa [modifyNth] using ih t

theorem setRowAll_get? (names : List String) (name : String) (v : Cell)
    (r : List Cell) (k : Nat) (n : String) (hk : names.get? k = some n)
    (hne : ¬ n = name) : (setRowAll names name v r).get? k = r.get? k := by
  rw [setRowAll, List.get?_zipWith', hk]
  cases hr : r.get? k with
  | none => rfl
  | some c => simp [hne]

theorem setRowAll_get?_short (names : List String) (name : String) (v : Cell)
    (r : List Cell) (k : Nat) (hk : r.get? k = none) :
    (setRowAll names name v r).get? k = none := by
  rw [setRowAll, List.get?_zipWith', hk]
  cases names.get? k <;> rfl

/-- The four per-row writes of the loop never touch the first two columns
of a frame labelled with `finalNames`. -/
theorem proj2_setRowAll (name : String) (v : Cell) (r : List Cell)
    (h0 : ¬ ("APIR code" : String) = name) (h1 : ¬ ("Product name" : String) = name) :
    proj2 (setRowAll finalNames name v r) = proj2 r := by
  unfold proj2
  rw [setRowAll_get? finalNames name v r 0 "APIR code" rfl h0,
      setRowAll_get? finalNames name v r 1 "Product name" rfl h1]

/-! ## Helper lemmas: the column normaliser and the initialisation -/


theorem list_length_eq_four {α : Type} (l : List α) (h : l.length = 4) :
    ∃ a b c d, l = [a, b, c, d] := by
  rcases l with _ | ⟨a, _ | ⟨b, _ | ⟨c, _ | ⟨d, _ | ⟨e, t⟩⟩⟩⟩⟩ <;> simp_all

theorem mapColumns_names (df : DF) (h4 : df.names.length = 4)
    (hnd : df.names.Nodup) : (map_columns df).names = expected_columns := by
  obtain ⟨a, b, c, d, hl⟩ := list_length_eq_four df.names h4
  simp only [map_columns, hl]
  rw [hl] at hnd
  simp only [List.nodup_cons, List.mem_cons, List.mem_singleton,
    List.not_mem_nil, or_false, not_or] at hnd
  obtain ⟨⟨hab, hac, had⟩, ⟨hbc, hbd⟩, hcd, -⟩ := hnd
  simp [colMapping, assocLast, expected_columns,
    Ne.symm hab, Ne.symm hac, Ne.symm had, Ne.symm hbc, Ne.symm hbd, Ne.symm hcd]

theorem mapColumns_rows (df : DF) : (map_columns df).rows = df.rows := rfl

theorem initCols_eq (rs : List (List Cell)) :
    initCols ⟨expected_columns, rs⟩ = ⟨finalNames, rs.map initRowFn⟩ := by
  have h : initCols ⟨expected_columns, rs⟩ =
      ⟨finalNames,
        (((rs.map (setRowAll expected_columns "Web link" (Cell.str ""))).map
          (fun r => r ++ [Cell.num 0])).map (fun r => r ++ [Cell.str ""])).map
          (setRowAll finalNames "PDS date" (Cell.str ""))⟩ := rfl
  rw [h]
  simp only [List.map_map]
  rfl

theorem initRowFn_na (r0 r2 r3 : Cell) :
    initRowFn [r0, Cell.na, r2, r3] =
      [r0, Cell.na, Cell.str "", Cell.str "", Cell.num 0, Cell.str ""] := rfl

theorem initRowFn_proj2 (r : List Cell) (h : 2 ≤ r.length) :
    proj2 (initRowFn r) = proj2 r := by
  unfold initRowFn
  rw [proj2_setRowAll _ _ _ (by decide) (by decide)]
  have hL : (setRowAll expected_columns "Web link" (Cell.str "") r).length =
      min 4 r.length := by
    simp [setRowAll, expected_columns]
  have h0 : (0 : Nat) < (setRowAll expected_columns "Web link" (Cell.str "") r).length := by
    omega
  have h1 : (1 : Nat) < (setRowAll expected_columns "Web link" (Cell.str "") r).length := by
    omega
  have h0' : (0 : Nat) <
      (setRowAll expected_columns "Web link" (Cell.str "") r ++ [Cell.num 0]).length := by
    simp only [List.length_append, List.length_singleton]
    omega
  have h1' : (1 : Nat) <
      (setRowAll expected_columns "Web link" (Cell.str "") r ++ [Cell.num 0]).length := by
    simp only [List.length_append, List.length_singleton]
    omega
  unfold proj2
  rw [List.get?_append h0', List.get?_append h1', List.get?_append h0,
    List.get?_append h1,
    setRowAll_get? expected_columns "Web link" (Cell.str "") r 0 "APIR code" rfl
      (by decide),
    setRowAll_get? expected_columns "Web link" (Cell.str "") r 1 "Product name" rfl
      (by decide)]

/-! ## Helper lemmas: one loop iteration -/

theorem getCell_product_final (d : DF) (hn : d.names = finalNames) (i : Nat) :
    getCell d "Product name" i =
      (match d.rows.get? i with
       | some r => r.get? 1
       | none => none) := by
  unfold getCell
  rw [hn]
  rfl

theorem stepRow_skip (w : World) (d : DF) (i : Nat)
    (h : getCell d "Product name" i = some Cell.na) :
    stepRow w d i = Except.ok d := by
  unfold stepRow
  rw [h]
  rfl

theorem stepRow_ok_names (w : World) (d : DF) (i : Nat) (d' : DF)
    (h : stepRow w d i = Except.ok d') : d'.names = d.names := by
  unfold stepRow at h
  split at h
  · exact Except.noConfusion h
  · split at h
    · cases Except.ok.inj h
      rfl
    · split at h
      · exact Except.noConfusion h
      · cases Except.ok.inj h
        rfl

theorem stepRow_ok_get?_ne (w : World) (d : DF) (i : Nat) (d' : DF)
    (h : stepRow w d i = Except.ok d') (j : Nat) (hj : ¬ j = i) :
    d'.rows.get? j = d.rows.get? j := by
  unfold stepRow at h
  split at h
  · exact Except.noConfusion h
  · split at h
    · cases Except.ok.inj h
      rfl
    · split at h
      · exact Except.noConfusion h
      · cases Except.ok.inj h
        simp only [setCell]
        rw [modifyNth_get?_ne _ _ _ _ hj, modifyNth_get?_ne _ _ _ _ hj,
          modifyNth_get?_ne _ _ _ _ hj, modifyNth_get?_ne _ _ _ _ hj]

theorem stepRow_ok_proj (w : World) (d : DF) (i : Nat) (d' : DF)
    (hn : d.names = finalNames) (h : stepRow w d i = Except.ok d') (j : Nat) :
    (d'.rows.get? j).map proj2 = (d.rows.get? j).map proj2 := by
  by_cases hj : j = i
  case neg => rw [stepRow_ok_get?_ne w d i d' h j hj]
  subst hj
  unfold stepRow at h
  split at h
  · exact Except.noConfusion h
  · split at h
    · cases Except.ok.inj h
      rfl
    · split at h
      · exact Except.noConfusion h
      · cases Except.ok.inj h
        simp only [setCell, hn]
        rw [modifyNth_get?_eq, modifyNth_get?_eq, modifyNth_get?_eq,
          modifyNth_get?_eq]
        cases hr : d.rows.get? j with
        | none => rfl
        | some r =>
          simp only [Option.map_some']
          rw [proj2_setRowAll _ _ _ (by decide) (by decide),
            proj2_setRowAll _ _ _ (by decide) (by decide),
            proj2_setRowAll _ _ _ (by decide) (by decide),
            proj2_setRowAll _ _ _ (by decide) (by decide)]

/-! ## Helper lemmas: the row loop -/

theorem foldlM_ok_names_proj (w : World) :
    ∀ (idxs : List Nat) (d out : DF), d.names = finalNames →
      idxs.foldlM (stepRow w) d = Except.ok out →
      out.names = finalNames ∧
      ∀ j, (out.rows.get? j).map proj2 = (d.rows.get? j).map proj2 := by
  intro idxs
  induction idxs with
  | nil =>
    intro d out hn h
    cases Except.ok.inj h
    exact ⟨hn, fun j => rfl⟩
  | cons i t ih =>
    intro d out hn h
    rw [List.foldlM_cons] at h
    cases hs : stepRow w d i with
    | error e => rw [hs] at h; exact Except.noConfusion h
    | ok d1 =>
      rw [hs] at h
      have hn1 : d1.names = finalNames :=
        (stepRow_ok_names w d i d1 hs).trans hn
      obtain ⟨ho, hp⟩ := ih d1 out hn1 h
      exact ⟨ho, fun j => (hp j).trans (stepRow_ok_proj w d i d1 hn hs j)⟩

theorem foldlM_fixes_na_row (w : World) (jj : Nat) (rj : List Cell)
    (hr : rj.get? 1 = some Cell.na) :
    ∀ (idxs : List Nat) (d out : DF), d.names = finalNames →
      d.rows.get? jj = some rj →
      idxs.foldlM (stepRow w) d = Except.ok out →
      out.rows.get? jj = some rj := by
  intro idxs
  induction idxs with
  | nil =>
    intro d out hn hrow h
    cases Except.ok.inj h
    exact hrow
  | cons i t ih =>
    intro d out hn hrow h
    rw [List.foldlM_cons] at h
    cases hs : stepRow w d i with
    | error e => rw [hs] at h; exact Except.noConfusion h
    | ok d1 =>
      rw [hs] at h
      by_cases hij : jj = i
      · have hcell : getCell d "Product name" jj = some Cell.na := by
          rw [getCell_product_final d hn jj, hrow]
          exact hr
        have hdd : d = d1 :=
          Except.ok.inj (((stepRow_skip w d jj hcell).symm.trans (hij ▸ hs)))
        exact ih d out hn hrow (hdd ▸ h)
      · have hn1 : d1.names = finalNames :=
          (stepRow_ok_names w d i d1 hs).trans hn
        have hrow1 : d1.rows.get? jj = some rj := by
          rw [stepRow_ok_get?_ne w d i d1 hs jj hij]
          exact hrow
        exact ih d1 out hn1 hrow1 h

theorem stepRow_ok_length (w : World) (d : DF) (i : Nat) (d' : DF)
    (h : stepRow w d i = Except.ok d') : d'.rows.length = d.rows.length := by
  unfold stepRow at h
  split at h
  · exact Except.noConfusion h
  · split at h
    · cases Except.ok.inj h
      rfl
    · split at h
      · exact Except.noConfusion h
      · cases Except.ok.inj h
        simp only [setCell]
        rw [modifyNth_length, modifyNth_length, modifyNth_length, modifyNth_length]

theorem foldlM_ok_length (w : World) :
    ∀ (idxs : List Nat) (d out : DF),
      idxs.foldlM (stepRow w) d = Except.ok out →
      out.rows.length = d.rows.length := by
  intro idxs
  induction idxs with
  | nil =>
    intro d out h
    cases Except.ok.inj h
    rfl
  | cons i t ih =>
    intro d out h
    rw [List.foldlM_cons] at h
    cases hs : stepRow w d i with
    | error e => rw [hs] at h; exact Except.noConfusion h
    | ok d1 =>
      rw [hs] at h
      exact (ih d1 out h).trans (stepRow_ok_length w d i d1 hs)

/-! ## Helper lemmas: scores produced by the parser branches -/

theorem match3_nonneg (cs : List Char) (r : Int × String × String)
    (h : match3 cs = some r) : 0 ≤ r.1 := by
  unfold match3 at h
  dsimp only at h
  repeat' split at h
  all_goals first
    | exact Option.noConfusion h
    | (cases Option.some.inj h; simp)

theorem match100_nonneg (cs : List Char) (r : Int × String × String)
    (h : match100 cs = some r) : 0 ≤ r.1 := by
  unfold match100 at h
  repeat' split at h
  all_goals first
    | exact Option.noConfusion h
    | (cases Option.some.inj h; simp)

theorem match2_nonneg (cs : List Char) (r : Int × String × String)
    (h : match2 cs = some r) : 0 ≤ r.1 := by
  unfold match2 at h
  dsimp only at h
  repeat' split at h
  all_goals first
    | exact Option.noConfusion h
    | (cases Option.some.inj h; simp)

/-! ## Claim theorems -/

/-- C2: for every model response string, the output parser attempts the
three-part pattern, then the bare 100-with-date pattern, then the two-part
pattern, then the generic fallback, in that fixed order, and returns the
triple produced by the first pattern that matches; on
"75 | Old date (-25) | PDS date: 15 March 2022" it yields
(75, "Old date (-25)", "15 March 2022"). -/
theorem C2_thm :
    (∀ content : String,
      (∀ r, match3 content.toList = some r → parse_ai_content content = r) ∧
      (match3 content.toList = none →
        ∀ r, match100 content.toList = some r → parse_ai_content content = r) ∧
      (match3 content.toList = none → match100 content.toList = none →
        ∀ r, match2 content.toList = some r → parse_ai_content content = r) ∧
      (match3 content.toList = none → match100 content.toList = none →
        match2 content.toList = none →
        parse_ai_content content = (0, fallbackReason, ""))) ∧
    parse_ai_content "75 | Old date (-25) | PDS date: 15 March 2022" =
      (75, "Old date (-25)", "15 March 2022") := by
  constructor
  · intro content
    refine ⟨?_, ?_, ?_, ?_⟩
    · intro r h
      unfold parse_ai_content
      rw [h]
    · intro h3 r h
      unfold parse_ai_content
      rw [h3, h]
    · intro h3 h100 r h
      unfold parse_ai_content
      rw [h3, h100, h]
    · intro h3 h100 h2
      unfold parse_ai_content
      rw [h3, h100, h2]
  · rfl

/-- C2 witness: the cascade theorem applied at the example input, whose
three-part pattern matches. -/
theorem C2_witness :
    parse_ai_content "75 | Old date (-25) | PDS date: 15 March 2022" =
      (75, "Old date (-25)", "15 March 2022") :=
  (C2_thm.1 "75 | Old date (-25) | PDS date: 15 March 2022").1
    (75, "Old date (-25)", "15 March 2022") rfl

/-- C3 counterexample: on "garbage text" no pattern matches and the parser
returns the fallback triple, but its reason string is spelled with the
right single quotation mark U+2019, not the ASCII apostrophe the claim's
"exactly" requires. -/
theorem C3_counterexample :
    parse_ai_content "garbage text" = (0, fallbackReason, "") ∧
    ¬ fallbackReason = asciiFallback ∧
    ¬ parse_ai_content "garbage text" = (0, asciiFallback, "") := by
  refine ⟨rfl, by decide, by decide⟩

/-- C3 (amended): for every model response string matched by none of the
three patterns, the classifier returns exactly (0, "Couldn’t parse AI
response", "") — with U+2019 in the reason, as in the source. -/
theorem C3_amended_thm (content : String)
    (h3 : match3 content.toList = none)
    (h100 : match100 content.toList = none)
    (h2 : match2 content.toList = none) :
    parse_ai_content content = (0, fallbackReason, "") := by
  unfold parse_ai_content
  rw [h3, h100, h2]

/-- C3 witness: the amended fallback theorem applied at "garbage text". -/
theorem C3_amended_witness :
    parse_ai_content "garbage text" = (0, fallbackReason, "") :=
  C3_amended_thm "garbage text" rfl rfl rfl

/-- C4 counterexample: the parser puts no upper bound on the score; the
response "101 | x" parses to score 101 > 100. -/
theorem C4_counterexample :
    (parse_ai_content "101 | x") = (101, "x", "") ∧
    ¬ (parse_ai_content "101 | x").1 ≤ 100 := by
  refine ⟨rfl, by decide⟩

/-- C4 (amended): every score the classifier's parser produces is a
non-negative integer; the claimed upper bound of 100 does not hold (see the
counterexample), only the lower bound 0 does. -/
theorem C4_amended_thm (content : String) : 0 ≤ (parse_ai_content content).1 := by
  unfold parse_ai_content
  cases h3 : match3 content.toList with
  | some r => exact match3_nonneg content.toList r h3
  | none =>
    cases h100 : match100 content.toList with
    | some r => exact match100_nonneg content.toList r h100
    | none =>
      cases h2 : match2 content.toList with
      | some r => exact match2_nonneg content.toList r h2
      | none => decide

/-- C6: the date normaliser is total; whenever the input parses as
day, full month name, four-digit year it is re-rendered with the day
unpadded, and otherwise the input is returned unchanged; with the two
examples from the specification. -/
theorem C6_thm :
    (∀ s : String,
      (∃ d m y, parseDMY s = some (d, m, y) ∧ format_pds_date s = renderDMY d m y) ∨
      (parseDMY s = none ∧ format_pds_date s = s)) ∧
    format_pds_date "05 January 2024" = "5 January 2024" ∧
    format_pds_date "not-a-date" = "not-a-date" := by
  refine ⟨fun s => ?_, rfl, rfl⟩
  cases h : parseDMY s with
  | none => exact Or.inr ⟨rfl, by simp [format_pds_date, h]⟩
  | some t =>
    obtain ⟨d, m, y⟩ := t
    exact Or.inl ⟨d, m, y, rfl, by simp [format_pds_date, h]⟩

/-- C5 counterexample: map_columns applied to a two-column table does not
fail; it returns the table with the two columns renamed positionally. -/
theorem C5_counterexample :
    map_columns ⟨["a", "b"], [[Cell.str "1", Cell.str "2"]]⟩ =
      ⟨["APIR code", "Product name"], [[Cell.str "1", Cell.str "2"]]⟩ ∧
    (["a", "b"] : List String).length < 4 := by
  refine ⟨rfl, by decide⟩

/-- C5 (amended): on a table with fewer than four (distinct) column labels,
map_columns renames the existing columns positionally to the first
canonical names and returns the renamed table; it does not fail. -/
theorem C5_amended_thm (df : DF) (hlt : df.names.length < 4)
    (hnd : df.names.Nodup) :
    (map_columns df).names = expected_columns.take df.names.length ∧
    (map_columns df).rows = df.rows := by
  obtain ⟨ns, rs⟩ := df
  refine ⟨?_, rfl⟩
  simp only [map_columns] at *
  rcases ns with _ | ⟨a, _ | ⟨b, _ | ⟨c, _ | ⟨d, t⟩⟩⟩⟩
  · rfl
  · simp [colMapping, assocLast, expected_columns]
  · simp only [List.nodup_cons, List.mem_singleton, List.not_mem_nil,
      not_false_iff, and_true] at hnd
    obtain ⟨hab, -⟩ := hnd
    simp [colMapping, assocLast, expected_columns, Ne.symm hab]
  · simp only [List.nodup_cons, List.mem_cons, List.mem_singleton,
      List.not_mem_nil, or_false, not_or] at hnd
    obtain ⟨⟨hab, hac⟩, hbc, -⟩ := hnd
    simp [colMapping, assocLast, expected_columns,
      Ne.symm hab, Ne.symm hac, Ne.symm hbc]
  · simp at hlt
    omega

/-- C5 witness: the amended normaliser theorem at a concrete two-column
table. -/
theorem C5_amended_witness :
    (map_columns ⟨["x", "y"], ([] : List (List Cell))⟩).names =
      expected_columns.take 2 ∧
    (map_columns ⟨["x", "y"], ([] : List (List Cell))⟩).rows =
      ([] : List (List Cell)) :=
  C5_amended_thm ⟨["x", "y"], []⟩ (by decide) (by decide)

/-- C7: when the locator returns no URL the row pipeline returns exactly
("Not found", 0, "No PDF", "") having called only the locator; when a URL
is found but no text is extracted it returns exactly
("Not found", 0, "No text extracted", "") having called only the locator
and the fetcher; in neither case is the classifier or the downloader
invoked. -/
theorem C7_thm (w : World) (pc ac : Cell) (name : String)
    (h : pyStrip pc = Except.ok name) :
    (w.locate name (apirCode ac) = "" →
      process_row w pc (some ac) =
        Except.ok (("Not found", 0, "No PDF", ""), [Call.locator])) ∧
    (¬ w.locate name (apirCode ac) = "" →
      w.fetchText (w.locate name (apirCode ac)) = "" →
      process_row w pc (some ac) =
        Except.ok (("Not found", 0, "No text extracted", ""),
          [Call.locator, Call.fetcher])) := by
  constructor
  · intro hl
    unfold process_row
    rw [h]
    dsimp only
    rw [if_pos hl]
  · intro hl ht
    unfold process_row
    rw [h]
    dsimp only
    rw [if_neg hl, if_pos ht]

/-- C7 witness: the short-circuit theorem at a concrete row in a world
whose search finds nothing. -/
theorem C7_witness :
    process_row wNoHit (Cell.str "p") (some Cell.na) =
      Except.ok (("Not found", 0, "No PDF", ""), [Call.locator]) :=
  (C7_thm wNoHit (Cell.str "p") Cell.na "p" rfl).1 rfl

/-- C8: when the classifier scores exactly 100 on a located URL with
extracted text, the downloader is invoked and the quadruple returned by the
row pipeline is the same for every download outcome — a failed download is
swallowed and never changes the classification result. -/
theorem C8_thm (w : World) (pc ac : Cell) (name : String)
    (h : pyStrip pc = Except.ok name)
    (hl : ¬ w.locate name (apirCode ac) = "")
    (ht : ¬ w.fetchText (w.locate name (apirCode ac)) = "")
    (h100 : (validate_pdf_with_ai w (w.fetchText (w.locate name (apirCode ac)))
      name (apirCode ac)).1 = 100)
    (hnf : ¬ w.locate name (apirCode ac) = "Not found") :
    ∀ dl : String → String → Option String,
      process_row { w with downloadResult := dl } pc (some ac) =
        Except.ok ((w.locate name (apirCode ac), 100,
          (validate_pdf_with_ai w (w.fetchText (w.locate name (apirCode ac)))
            name (apirCode ac)).2.1,
          (validate_pdf_with_ai w (w.fetchText (w.locate name (apirCode ac)))
            name (apirCode ac)).2.2),
          [Call.locator, Call.fetcher, Call.classifier, Call.downloader]) := by
  intro dl
  unfold process_row
  rw [h]
  dsimp only
  have hv : validate_pdf_with_ai { w with downloadResult := dl }
      (w.fetchText (w.locate name (apirCode ac))) name (apirCode ac) =
      validate_pdf_with_ai w (w.fetchText (w.locate name (apirCode ac))) name
        (apirCode ac) := rfl
  rw [if_neg hl, if_neg ht, if_pos ⟨h100, hnf⟩, hv, h100]

/-- C8 witness: the download-independence theorem at a concrete fully-valid
row, once with a failing downloader and once with a succeeding one; both
runs return the same quadruple. -/
theorem C8_witness :
    process_row { wHit with downloadResult := fun _ _ => none }
        (Cell.str "Fund") (some Cell.na) =
      process_row { wHit with downloadResult := fun _ _ => some "file" }
        (Cell.str "Fund") (some Cell.na) ∧
    process_row { wHit with downloadResult := fun _ _ => none }
        (Cell.str "Fund") (some Cell.na) =
      Except.ok (("http://x", 100, "", "10 April 2023"),
        [Call.locator, Call.fetcher, Call.classifier, Call.downloader]) :=
  ⟨(C8_thm wHit (Cell.str "Fund") Cell.na "Fund" rfl (by decide) (by decide)
      rfl (by decide) (fun _ _ => none)).trans
    (C8_thm wHit (Cell.str "Fund") Cell.na "Fund" rfl (by decide) (by decide)
      rfl (by decide) (fun _ _ => some "file")).symm,
   C8_thm wHit (Cell.str "Fund") Cell.na "Fund" rfl (by decide) (by decide)
      rfl (by decide) (fun _ _ => none)⟩

/-- C10: the per-row guard only skips rows whose product-name cell is
missing (NaN); a non-null, non-string product-name cell (a number) reaches
the row pipeline, whose string-method call raises, aborting the batch run:
witnessed by a concrete one-row table. -/
theorem C10_thm :
    Cell.isna (Cell.num 5) = false ∧
    run_my_script wNoHit
        ⟨["a", "b", "c", "d"],
         [[Cell.str "X", Cell.num 5, Cell.str "", Cell.str ""]]⟩ =
      Except.error PyErr.attributeError ∧
    run_my_script wNoHit
        ⟨["a", "b", "c", "d"],
         [[Cell.str "X", Cell.na, Cell.str "", Cell.str ""]]⟩ =
      Except.ok
        ⟨["APIR code", "Product name", "PDS date", "Web link",
          "Validity Score", "Validation Reason"],
         [[Cell.str "X", Cell.na, Cell.str "", Cell.str "",
           Cell.num 0, Cell.str ""]]⟩ := by
  refine ⟨rfl, rfl, rfl⟩

/-- C1 counterexample: in a world whose search finds nothing, a two-row
table whose first row has a missing (NaN) product name and whose second
row has an empty-string product name. The first row is skipped by the loop,
yet its Web link cell is reset from "link0" to "" (and its PDS date from
"1 May 2020" to "") by the pre-loop initialisation; the second row is not
skipped at all: it is processed and gets Web link "Not found", score 0 and
reason "No PDF". Both contradict the claimed full pass-through. -/
theorem C1_counterexample :
    run_my_script wNoHit
        ⟨["c1", "c2", "c3", "c4"],
         [[Cell.str "A1", Cell.na, Cell.str "1 May 2020", Cell.str "link0"],
          [Cell.str "A2", Cell.str "", Cell.str "d1", Cell.str "link1"]]⟩ =
      Except.ok
        ⟨["APIR code", "Product name", "PDS date", "Web link",
          "Validity Score", "Validation Reason"],
         [[Cell.str "A1", Cell.na, Cell.str "", Cell.str "",
           Cell.num 0, Cell.str ""],
          [Cell.str "A2", Cell.str "", Cell.str "", Cell.str "Not found",
           Cell.num 0, Cell.str "No PDF"]]⟩ ∧
    ¬ Cell.str "" = Cell.str "link0" ∧
    ¬ Cell.str "Not found" = Cell.str "link1" := by
  refine ⟨rfl, by decide, by decide⟩

/-- C1 (amended): only rows whose product-name cell is missing (NaN) are
skipped by the loop — empty-string product names are processed, see the
counterexample. A skipped row keeps its APIR code and Product name cells,
but its Web link and PDS date cells are reset to "" and its appended
Validity Score and Validation Reason cells hold 0 and "", all from the
pre-loop column initialisation. -/
theorem C1_amended_thm (w : World) (df : DF) (j : Nat) (r0 r2 r3 : Cell)
    (h4 : df.names.length = 4) (hnd : df.names.Nodup)
    (hrow : df.rows.get? j = some [r0, Cell.na, r2, r3])
    (out : DF) (hrun : run_my_script w df = Except.ok out) :
    out.rows.get? j =
      some [r0, Cell.na, Cell.str "", Cell.str "", Cell.num 0, Cell.str ""] := by
  unfold run_my_script at hrun
  have hmc : map_columns df = ⟨expected_columns, df.rows⟩ := by
    calc map_columns df
        = ⟨(map_columns df).names, (map_columns df).rows⟩ := rfl
      _ = ⟨expected_columns, df.rows⟩ := by
          rw [mapColumns_names df h4 hnd, mapColumns_rows]
  rw [hmc, initCols_eq] at hrun
  have hd0row : ((⟨finalNames, df.rows.map initRowFn⟩ : DF)).rows.get? j =
      some [r0, Cell.na, Cell.str "", Cell.str "", Cell.num 0, Cell.str ""] := by
    show (df.rows.map initRowFn).get? j = _
    rw [List.get?_map, hrow]
    rfl
  exact foldlM_fixes_na_row w j
    [r0, Cell.na, Cell.str "", Cell.str "", Cell.num 0, Cell.str ""] rfl
    _ _ out rfl hd0row hrun

/-- C1 witness: the amended pass-through theorem at a concrete one-row
table with a missing product name. -/
theorem C1_amended_witness :
    run_my_script wNoHit
        ⟨["n1", "n2", "n3", "n4"],
         [[Cell.str "K", Cell.na, Cell.str "old", Cell.str "oldlink"]]⟩ =
      Except.ok
        ⟨["APIR code", "Product name", "PDS date", "Web link",
          "Validity Score", "Validation Reason"],
         [[Cell.str "K", Cell.na, Cell.str "", Cell.str "",
           Cell.num 0, Cell.str ""]]⟩ ∧
    (⟨["APIR code", "Product name", "PDS date", "Web link",
        "Validity Score", "Validation Reason"],
      [[Cell.str "K", Cell.na, Cell.str "", Cell.str "",
        Cell.num 0, Cell.str ""]]⟩ : DF).rows.get? 0 =
      some [Cell.str "K", Cell.na, Cell.str "", Cell.str "",
        Cell.num 0, Cell.str ""] :=
  ⟨rfl,
   C1_amended_thm wNoHit
     ⟨["n1", "n2", "n3", "n4"],
      [[Cell.str "K", Cell.na, Cell.str "old", Cell.str "oldlink"]]⟩
     0 (Cell.str "K") (Cell.str "old") (Cell.str "oldlink")
     (by decide) (by decide) rfl _ rfl⟩

/-- C9 counterexample: a successful run's output has six columns with a
single `PDS date` column — there is no second, distinct PDS-date column;
the source-provided PDS date column itself is overwritten. -/
theorem C9_counterexample :
    run_my_script wNoHit ⟨["h1", "h2", "h3", "h4"], []⟩ =
      Except.ok
        ⟨["APIR code", "Product name", "PDS date", "Web link",
          "Validity Score", "Validation Reason"], []⟩ ∧
    List.count "PDS date"
      ["APIR code", "Product name", "PDS date", "Web link",
       "Validity Score", "Validation Reason"] = 1 := by
  refine ⟨rfl, by decide⟩

/-- C9 (amended): a successful run on a table with four distinct column
labels and rectangular rows yields a spreadsheet whose columns are exactly
APIR code, Product name, PDS date, Web link, Validity Score, Validation
Reason (each once: the classifier-derived date overwrites the single PDS
date column), with the same number of rows in the same order — each output
row sits at its input row's position, keeping its APIR code and Product
name cells. -/
theorem C9_amended_thm (w : World) (df : DF)
    (h4 : df.names.length = 4) (hnd : df.names.Nodup)
    (hwf : ∀ r ∈ df.rows, r.length = 4)
    (out : DF) (hrun : run_my_script w df = Except.ok out) :
    out.names = finalNames ∧
    out.rows.length = df.rows.length ∧
    ∀ j, (out.rows.get? j).map proj2 = (df.rows.get? j).map proj2 := by
  unfold run_my_script at hrun
  have hmc : map_columns df = ⟨expected_columns, df.rows⟩ := by
    calc map_columns df
        = ⟨(map_columns df).names, (map_columns df).rows⟩ := rfl
      _ = ⟨expected_columns, df.rows⟩ := by
          rw [mapColumns_names df h4 hnd, mapColumns_rows]
  rw [hmc, initCols_eq] at hrun
  obtain ⟨hnames, hproj⟩ :=
    foldlM_ok_names_proj w _ ⟨finalNames, df.rows.map initRowFn⟩ out rfl hrun
  have hlen := foldlM_ok_length w _ ⟨finalNames, df.rows.map initRowFn⟩ out hrun
  refine ⟨hnames, ?_, ?_⟩
  · rw [hlen]
    exact List.length_map _ _
  · intro j
    rw [hproj j]
    show ((df.rows.map initRowFn).get? j).map proj2 = (df.rows.get? j).map proj2
    rw [List.get?_map]
    cases hr : df.rows.get? j with
    | none => rfl
    | some r =>
      simp only [Option.map_some']
      rw [initRowFn_proj2 r (by rw [hwf r (List.get?_mem hr)]; omega)]

/-- C9 witness: the amended schema theorem at a concrete one-row table. -/
theorem C9_amended_witness :
    (⟨["APIR code", "Product name", "PDS date", "Web link",
        "Validity Score", "Validation Reason"],
      [[Cell.str "A", Cell.na, Cell.str "", Cell.str "",
        Cell.num 0, Cell.str ""]]⟩ : DF).names = finalNames ∧
    (⟨["APIR code", "Product name", "PDS date", "Web link",
        "Validity Score", "Validation Reason"],
      [[Cell.str "A", Cell.na, Cell.str "", Cell.str "",
        Cell.num 0, Cell.str ""]]⟩ : DF).rows.length =
      ([[Cell.str "A", Cell.na, Cell.str "d", Cell.str "l"]] :
        List (List Cell)).length ∧
    ∀ j, (((⟨["APIR code", "Product name", "PDS date", "Web link",
        "Validity Score", "Validation Reason"],
      [[Cell.str "A", Cell.na, Cell.str "", Cell.str "",
        Cell.num 0, Cell.str ""]]⟩ : DF)).rows.get? j).map proj2 =
      (([[Cell.str "A", Cell.na, Cell.str "d", Cell.str "l"]] :
        List (List Cell)).get? j).map proj2 :=
  C9_amended_thm wNoHit
    ⟨["m1", "m2", "m3", "m4"],
     [[Cell.str "A", Cell.na, Cell.str "d", Cell.str "l"]]⟩
    (by decide) (by decide) (by decide) _ rfl
